import Mathlib

/-!
# Sai Motors management backend — verification of the sale workflow and derived-state invariants

Shallow embedding of the motorcycle-dealership backend: the entity records
(Bike, Customer, Sale, Payment), the mongoose `pre('save')` derived-field
hooks, the sale-creation workflow, the payment ledger, the customer/bike
update and delete endpoints, and the price-suggestion heuristic.

Modelling conventions:
* JS numbers carrying money/percent values are modelled as `ℚ`;
  dates are integer millisecond timestamps (`Int`); ids are `Nat`.
* A mongoose collection is an association list `List (Nat × α)` paired with a
  fresh-id counter; `findById` is first-match lookup, `save` of an existing
  document rewrites its entry in place, a new document is appended.
* JS truthiness tests on numbers (`if (this.sellPrice && this.buyPrice)`,
  `daysToSell || 30`) are modelled as ≠ 0 / = 0 tests, and on nullable
  fields as `Option` matches.
* `Math.ceil` / `Math.round` on a rational q are `⌈q⌉` and `⌊q + 1/2⌋`.
-/

namespace SaiMotors

/-- `status` enum of the Bike schema. -/
inductive BikeStatus
  | available
  | sold
  | reserved
  deriving DecidableEq, Repr

/-- `status` enum of the Payment schema; `partialPaid` stands for the
string value `'partial'`. -/
inductive PaymentStatus
  | pending
  | partialPaid
  | completed
  deriving DecidableEq, Repr

/-- `customerType` enum of the Customer schema. -/
inductive CustomerType
  | regular
  | premium
  | vip
  deriving DecidableEq, Repr

/-- `paymentMode` / `paymentMethod` enum shared by Sale and Payment. -/
inductive PayMethod
  | cash
  | upi
  | card
  | bankTransfer
  | cheque
  deriving DecidableEq, Repr

/-- One entry of `paymentLogs` (sub-schema `paymentLogSchema`). -/
structure PaymentLog where
  amount : ℚ
  paymentDate : Int
  paymentMethod : PayMethod
  notes : Option String
  receivedBy : Nat
  deriving DecidableEq, Repr

/-- A document of the Payment collection (`src/models/Payment.js`). -/
structure Payment where
  saleId : Nat
  bikeId : Nat
  customerId : Nat
  totalAmount : ℚ
  paidAmount : ℚ
  remainingAmount : ℚ
  status : PaymentStatus
  paymentLogs : List PaymentLog
  dueDate : Option Int
  notes : Option String
  deriving DecidableEq, Repr

/-- `paymentSchema.pre('save')`: recompute `remainingAmount` and derive
`status` from `paidAmount` vs `totalAmount`. -/
def paymentPreSave (p : Payment) : Payment :=
  { p with
    remainingAmount := p.totalAmount - p.paidAmount
    status :=
      if p.paidAmount = 0 then .pending
      else if p.paidAmount < p.totalAmount then .partialPaid
      else .completed }

/-- A document of the Customer collection (`src/models/Customer.js`). -/
structure Customer where
  name : String
  phone : String
  email : Option String
  address : String
  totalSpent : ℚ
  totalBikesBought : Nat
  lastPurchaseDate : Option Int
  customerType : CustomerType
  isActive : Bool
  deriving DecidableEq, Repr

/-- `customerSchema.pre('save')`: derive `customerType` from `totalSpent`. -/
def customerPreSave (c : Customer) : Customer :=
  { c with
    customerType :=
      if 500000 ≤ c.totalSpent then .vip
      else if 200000 ≤ c.totalSpent then .premium
      else .regular }

/-- A document of the Bike collection (`src/models/Bike.js`). -/
structure Bike where
  bikeNumber : String
  brand : String
  model : String
  year : Int
  buyPrice : ℚ
  sellPrice : Option ℚ
  profit : Option ℚ
  profitPercent : Option ℚ
  status : BikeStatus
  purchaseDate : Int
  sellDate : Option Int
  daysToSell : Option Int
  conditionRating : ℚ
  saleId : Option Nat
  deriving DecidableEq, Repr

/-- `bikeSchema.pre('save')`: recompute `profit`/`profitPercent` when
`sellPrice` and `buyPrice` are both truthy (non-null and non-zero), and
`daysToSell` when both dates are present. -/
def bikePreSave (b : Bike) : Bike :=
  let b1 :=
    match b.sellPrice with
    | some sp =>
        if sp ≠ 0 ∧ b.buyPrice ≠ 0 then
          { b with
            profit := some (sp - b.buyPrice)
            profitPercent := some ((sp - b.buyPrice) / b.buyPrice * 100) }
        else b
    | none => b
  match b.sellDate with
  | some sd =>
      { b1 with daysToSell := some ⌈(((sd - b.purchaseDate : Int) : ℚ) / 86400000)⌉ }
  | none => b1

/-- A document of the Sale collection (`src/models/Sale.js`); its
`pre('save')` hook has an empty body, so saving a Sale recomputes nothing. -/
structure Sale where
  saleNumber : String
  bikeId : Nat
  customerId : Nat
  buyerName : String
  buyerPhone : String
  buyerAddress : String
  sellingPrice : ℚ
  discount : ℚ
  finalAmount : ℚ
  profit : ℚ
  profitPercent : ℚ
  paymentMode : PayMethod
  paymentStatus : String
  invoiceNumber : String
  invoicePath : Option String
  notes : Option String
  soldBy : Nat
  createdAt : Int
  deriving DecidableEq, Repr

/-- The entity store: one association list per collection plus a fresh-id
counter standing for MongoDB ObjectId generation. -/
structure DB where
  bikes : List (Nat × Bike)
  customers : List (Nat × Customer)
  sales : List (Nat × Sale)
  payments : List (Nat × Payment)
  nextId : Nat
  deriving DecidableEq, Repr

/-- `Model.findById`: first entry with the given id. -/
def lookup {α : Type} (l : List (Nat × α)) (i : Nat) : Option α :=
  (l.find? (fun p => p.1 = i)).map Prod.snd

/-- `document.save()` on an existing document: rewrite the entries holding
id `i` with the new value. -/
def setEntry {α : Type} (l : List (Nat × α)) (i : Nat) (v : α) : List (Nat × α) :=
  l.map (fun p => if p.1 = i then (i, v) else p)

/-- Request body of `POST /api/sales` (`router.post('/')` in the sales
routes). `discount` defaults to 0 at destructuring when absent. -/
structure SaleRequest where
  bikeId : Nat
  buyerName : String
  buyerPhone : String
  buyerAddress : String
  sellingPrice : ℚ
  discount : ℚ
  paymentMode : PayMethod
  notes : Option String
  deriving DecidableEq, Repr

/-- Ambient request context: the current date (year, zero-based-month+1,
epoch milliseconds), the 3-digit random suffix drawn by the handler, and
the authenticated user id. -/
structure Env where
  year : Nat
  month : Nat
  nowMs : Int
  rand : Nat
  userId : Nat
  deriving DecidableEq, Repr

/-- `String(n).padStart(2, '0')`. -/
def pad2 (n : Nat) : String :=
  if n < 10 then "0" ++ toString n else toString n

/-- `String(n).padStart(3, '0')`. -/
def pad3 (n : Nat) : String :=
  if n < 10 then "00" ++ toString n
  else if n < 100 then "0" ++ toString n
  else toString n

/-- The express-validator chain of `POST /api/sales`: buyer fields are
non-empty (the `.trim()` sanitizer is left out: request strings are taken
as already trimmed) and the selling price is a non-negative number
(`paymentMode`, `bikeId` being well-typed is captured by the field types). -/
def validSaleRequest (req : SaleRequest) : Bool :=
  req.buyerName ≠ "" && req.buyerPhone ≠ "" &&
    req.buyerAddress ≠ "" && decide (0 ≤ req.sellingPrice)

/-- Mongoose validation of a Sale document at save time: the schema puts
`min: 0` on `sellingPrice`, `discount` and `finalAmount`. -/
def validSaleDoc (s : Sale) : Bool :=
  decide (0 ≤ s.sellingPrice) && decide (0 ≤ s.discount) && decide (0 ≤ s.finalAmount)

/-- The customer the workflow creates when no document matches the buyer
phone (`new Customer({name, phone, address})` followed by `save()`). -/
def newCustomer (req : SaleRequest) : Customer :=
  customerPreSave
    { name := req.buyerName, phone := req.buyerPhone, email := none
      address := req.buyerAddress, totalSpent := 0, totalBikesBought := 0
      lastPurchaseDate := none, customerType := .regular, isActive := true }

/-- State after the workflow's customer-creation step. -/
def dbWithNewCustomer (db : DB) (req : SaleRequest) : DB :=
  { db with
    customers := db.customers ++ [(db.nextId, newCustomer req)]
    nextId := db.nextId + 1 }

/-- The Sale document the workflow builds (before the invoice path is
stored): `finalAmount = sellingPrice − discount`,
`profit = sellingPrice − discount − bike.buyPrice`,
`profitPercent = profit / bike.buyPrice × 100`. -/
def workflowSale (env : Env) (req : SaleRequest) (custId : Nat) (bike : Bike) : Sale :=
  { saleNumber := "SAL-" ++ toString env.year ++ pad2 env.month ++ "-" ++ pad3 env.rand
    bikeId := req.bikeId, customerId := custId
    buyerName := req.buyerName, buyerPhone := req.buyerPhone
    buyerAddress := req.buyerAddress
    sellingPrice := req.sellingPrice, discount := req.discount
    finalAmount := req.sellingPrice - req.discount
    profit := req.sellingPrice - req.discount - bike.buyPrice
    profitPercent := (req.sellingPrice - req.discount - bike.buyPrice) / bike.buyPrice * 100
    paymentMode := req.paymentMode, paymentStatus := "Paid"
    invoiceNumber := "SB-" ++ toString env.year ++ "-" ++ pad3 env.rand
    invoicePath := none, notes := req.notes
    soldBy := env.userId, createdAt := env.nowMs }

/-- `/invoices/invoice-{invoiceNumber}.pdf`. -/
def invoicePathOf (s : Sale) : String :=
  "/invoices/invoice-" ++ s.invoiceNumber ++ ".pdf"

/-- The bike as persisted by the workflow's bike-mutation step: the
handler writes `sellPrice`, `profit`, `profitPercent`, `status`,
`sellDate` and `saleId`, and then `save()` runs the Bike pre-save hook on
the result. -/
def workflowBike (env : Env) (req : SaleRequest) (bike : Bike) (saleId : Nat) : Bike :=
  bikePreSave
    { bike with
      sellPrice := some req.sellingPrice
      profit := some (req.sellingPrice - req.discount - bike.buyPrice)
      profitPercent :=
        some ((req.sellingPrice - req.discount - bike.buyPrice) / bike.buyPrice * 100)
      status := .sold, sellDate := some env.nowMs, saleId := some saleId }

/-- The customer as persisted by the workflow's aggregate-update step. -/
def workflowCustomer (env : Env) (req : SaleRequest) (cust : Customer) : Customer :=
  customerPreSave
    { cust with
      totalSpent := cust.totalSpent + (req.sellingPrice - req.discount)
      totalBikesBought := cust.totalBikesBought + 1
      lastPurchaseDate := some env.nowMs }

/-- The Payment document the workflow bootstraps (`paidAmount` equal to
`totalAmount`, i.e. recorded as fully paid), as persisted after its
pre-save hook. -/
def workflowPayment (req : SaleRequest) (saleId custId : Nat) : Payment :=
  paymentPreSave
    { saleId := saleId, bikeId := req.bikeId, customerId := custId
      totalAmount := req.sellingPrice - req.discount
      paidAmount := req.sellingPrice - req.discount
      remainingAmount := 0, status := .pending, paymentLogs := []
      dueDate := none, notes := none }

/-- The tail of the sale workflow, once the bike and the customer
(`custId`, `cust`, already persisted in `dbC`) are resolved: persist the
Sale, mutate the Bike, update the Customer aggregates, store the invoice
path, and bootstrap a Payment when the final amount is positive. -/
def createSaleCore (env : Env) (req : SaleRequest) (bike : Bike) (custId : Nat)
    (cust : Customer) (dbC : DB) : DB × Except String Nat :=
  let sale := workflowSale env req custId bike
  if ¬ validSaleDoc sale then (dbC, .error "Server error")
  else
    let saleId := dbC.nextId
    let db2 : DB := { dbC with
      sales := dbC.sales ++ [(saleId, sale)]
      nextId := dbC.nextId + 1 }
    let db3 : DB :=
      { db2 with bikes := setEntry db2.bikes req.bikeId (workflowBike env req bike saleId) }
    let db4 : DB :=
      { db3 with customers := setEntry db3.customers custId (workflowCustomer env req cust) }
    let db5 : DB :=
      { db4 with sales :=
          setEntry db4.sales saleId { sale with invoicePath := some (invoicePathOf sale) } }
    let db6 : DB :=
      if 0 < req.sellingPrice - req.discount then
        { db5 with
          payments := db5.payments ++ [(db5.nextId, workflowPayment req saleId custId)]
          nextId := db5.nextId + 1 }
      else db5
    (db6, .ok saleId)

/-- The sale-creation workflow (`router.post('/')` in the sales routes):
validate, check the bike exists and is available, find-or-create the
customer by phone, then run the persistence steps of `createSaleCore`.
Returns the state after the steps that ran, plus the created sale id or
the error message. -/
def createSale (env : Env) (req : SaleRequest) (db : DB) : DB × Except String Nat :=
  if ¬ validSaleRequest req then (db, .error "Invalid input")
  else
    match lookup db.bikes req.bikeId with
    | none => (db, .error "Bike not found")
    | some bike =>
      if bike.status ≠ .available then (db, .error "Bike is not available for sale")
      else
        match db.customers.find? (fun p => p.2.phone = req.buyerPhone) with
        | some (cid, c) => createSaleCore env req bike cid c db
        | none =>
          createSaleCore env req bike db.nextId (newCustomer req)
            (dbWithNewCustomer db req)

/-- `router.post('/:id/payment')` in the payments routes, acting on the
Payment document the route looked up: express-validator requires
`amount` to be a number ≥ 0.01; the handler then rejects an amount above
the current `remainingAmount`, otherwise appends a log entry, adds the
amount to `paidAmount` and saves (running `paymentPreSave`). -/
def recordPayment (p : Payment) (amount : ℚ) (method : PayMethod)
    (payDate : Int) (note : Option String) (userId : Nat) : Except String Payment :=
  if ¬ (1/100 ≤ amount) then .error "Invalid input"
  else if p.remainingAmount < amount then
    .error "Payment amount cannot exceed remaining amount"
  else
    .ok (paymentPreSave
      { p with
        paymentLogs := p.paymentLogs ++
          [{ amount := amount, paymentDate := payDate, paymentMethod := method
             notes := note, receivedBy := userId }]
        paidAmount := p.paidAmount + amount })

/-- Request body of `PUT /api/customers/:id`: `name`/`phone`/`address` are
required; every other field of the body is copied onto the document by
`Object.assign(customer, req.body)`, so the aggregate fields may also be
supplied (absent fields are `none` and leave the document value). -/
structure CustomerUpdateRequest where
  name : String
  phone : String
  address : String
  email : Option String
  totalSpent : Option ℚ
  totalBikesBought : Option Nat
  isActive : Option Bool
  deriving DecidableEq, Repr

/-- The express-validator chain of `PUT /api/customers/:id` (strings taken
as already trimmed). -/
def validCustomerUpdate (req : CustomerUpdateRequest) : Bool :=
  req.name ≠ "" && req.phone ≠ "" && req.address ≠ ""

/-- `PUT /api/customers/:id`: validate, look the customer up, reject a
phone change that collides with another customer, `Object.assign` the
body onto the document and save (mongoose checks the schema `min: 0`
bounds, then the pre-save hook recomputes `customerType`). -/
def updateCustomer (db : DB) (cid : Nat) (req : CustomerUpdateRequest) :
    DB × Except String Unit :=
  if ¬ validCustomerUpdate req then (db, .error "Invalid input")
  else
    match lookup db.customers cid with
    | none => (db, .error "Customer not found")
    | some c =>
      if req.phone ≠ c.phone ∧
          db.customers.any (fun p => p.2.phone = req.phone && p.1 ≠ cid) then
        (db, .error "Customer with this phone number already exists")
      else
        let c1 : Customer :=
          { c with
            name := req.name, phone := req.phone, address := req.address
            email := match req.email with | some e => some e | none => c.email
            totalSpent := req.totalSpent.getD c.totalSpent
            totalBikesBought := req.totalBikesBought.getD c.totalBikesBought
            isActive := req.isActive.getD c.isActive }
        if ¬ (0 ≤ c1.totalSpent) then (db, .error "Server error")
        else
          ({ db with customers := setEntry db.customers cid (customerPreSave c1) },
           .ok ())

/-- The `brand` enum of the Bike schema. -/
def bikeBrands : List String :=
  ["Honda", "Yamaha", "Bajaj", "TVS", "Hero", "KTM", "Royal Enfield",
   "Suzuki", "Kawasaki"]

/-- Request body of the bike create/update routes: the validated required
fields, plus the optional fields the `...req.body` spread / `Object.assign`
may carry. -/
structure BikeRequest where
  bikeNumber : String
  brand : String
  model : String
  year : Int
  buyPrice : ℚ
  purchaseDate : Option Int
  status : Option BikeStatus
  sellPrice : Option ℚ
  conditionRating : Option ℚ
  deriving DecidableEq, Repr

/-- The express-validator chain shared by `POST /api/bikes` and
`PUT /api/bikes/:id` (`currentYear` is `new Date().getFullYear()`;
strings taken as already trimmed). -/
def validBikeRequest (currentYear : Int) (req : BikeRequest) : Bool :=
  req.bikeNumber ≠ "" && req.brand ∈ bikeBrands && req.model ≠ "" &&
    decide (1990 ≤ req.year) && decide (req.year ≤ currentYear + 1) &&
    decide (0 ≤ req.buyPrice)

/-- `POST /api/bikes`: validate, reject a duplicate (uppercased) bike
number, create the document with schema defaults and save. -/
def createBike (currentYear : Int) (db : DB) (req : BikeRequest) :
    DB × Except String Unit :=
  if ¬ (validBikeRequest currentYear req && req.purchaseDate.isSome) then
    (db, .error "Invalid input")
  else if db.bikes.any (fun p => p.2.bikeNumber = req.bikeNumber.toUpper) then
    (db, .error "Bike number already exists")
  else
    let b : Bike := bikePreSave
      { bikeNumber := req.bikeNumber.toUpper, brand := req.brand
        model := req.model, year := req.year, buyPrice := req.buyPrice
        sellPrice := req.sellPrice, profit := none, profitPercent := none
        status := req.status.getD .available
        purchaseDate := req.purchaseDate.getD 0, sellDate := none
        daysToSell := none, conditionRating := req.conditionRating.getD 8
        saleId := none }
    ({ db with
       bikes := db.bikes ++ [(db.nextId, b)]
       nextId := db.nextId + 1 }, .ok ())

/-- `PUT /api/bikes/:id`: validate, look the bike up, reject when its
status is `'sold'`, reject a duplicate bike number, `Object.assign` the
body and save. -/
def updateBike (currentYear : Int) (db : DB) (bid : Nat) (req : BikeRequest) :
    DB × Except String Unit :=
  if ¬ validBikeRequest currentYear req then (db, .error "Invalid input")
  else
    match lookup db.bikes bid with
    | none => (db, .error "Bike not found")
    | some bike =>
      if bike.status = .sold then (db, .error "Cannot update sold bike")
      else if req.bikeNumber.toUpper ≠ bike.bikeNumber ∧
          db.bikes.any (fun p => p.2.bikeNumber = req.bikeNumber.toUpper && p.1 ≠ bid) then
        (db, .error "Bike number already exists")
      else
        let b1 : Bike := bikePreSave
          { bike with
            bikeNumber := req.bikeNumber.toUpper, brand := req.brand
            model := req.model, year := req.year, buyPrice := req.buyPrice
            purchaseDate := req.purchaseDate.getD bike.purchaseDate
            status := req.status.getD bike.status
            sellPrice := match req.sellPrice with
              | some v => some v
              | none => bike.sellPrice
            conditionRating := req.conditionRating.getD bike.conditionRating }
        ({ db with bikes := setEntry db.bikes bid b1 }, .ok ())

/-- `DELETE /api/bikes/:id`: look the bike up, reject when its status is
`'sold'`, otherwise remove the document. -/
def deleteBike (db : DB) (bid : Nat) : DB × Except String Unit :=
  match lookup db.bikes bid with
  | none => (db, .error "Bike not found")
  | some bike =>
    if bike.status = .sold then (db, .error "Cannot delete sold bike")
    else ({ db with bikes := db.bikes.filter (fun p => p.1 ≠ bid) }, .ok ())

/-- A mutating request of the bikes route group. -/
inductive BikesOp
  | create (req : BikeRequest)
  | update (bid : Nat) (req : BikeRequest)
  | delete (bid : Nat)
  deriving DecidableEq, Repr

/-- State reached after one bikes-API request. -/
def applyBikesOp (currentYear : Int) (db : DB) : BikesOp → DB
  | .create req => (createBike currentYear db req).1
  | .update bid req => (updateBike currentYear db bid req).1
  | .delete bid => (deleteBike db bid).1

/-- State reached after a sequence of bikes-API requests. -/
def applyBikesOps (currentYear : Int) (db : DB) (ops : List BikesOp) : DB :=
  ops.foldl (applyBikesOp currentYear) db

/-- `Math.round`: `⌊q + 1/2⌋` (JS rounds halves toward +∞). -/
def jsRound (q : ℚ) : Int := ⌊q + 1/2⌋

/-- Confidence label of a price suggestion. -/
inductive Confidence
  | low
  | medium
  | high
  deriving DecidableEq, Repr

/-- The `marketData` object of a price suggestion. -/
structure MarketData where
  avgSellPrice : Int
  avgProfit : Int
  avgDaysToSell : Int
  sampleSize : Nat
  deriving DecidableEq, Repr

/-- Result of `generatePriceSuggestion`. -/
structure PriceSuggestion where
  suggestedPrice : ℚ
  confidence : Confidence
  marketData : Option MarketData
  deriving DecidableEq, Repr

/-- `b.daysToSell || 30`: JS `||` yields 30 both for null and for 0. -/
def daysToSellOr30 (d : Option Int) : ℚ :=
  match d with
  | some v => if v = 0 then 30 else (v : ℚ)
  | none => 30

/-- `generatePriceSuggestion(bike, similarBikes)` in `src/routes/ai.js`:
with no similar bike, a 15% markup on the buy price at low confidence;
otherwise the similar bikes' average sell price scaled by
`1 − 0.05·(currentYear − year) + 0.02·(conditionRating − 8)` (the
condition term only when `conditionRating` is truthy), rounded, at high
confidence for a sample of at least 3 and medium below.  A null
`sellPrice`/`profit` coerces to 0 in the JS sums. -/
def generatePriceSuggestion (currentYear : Int) (bike : Bike)
    (similarBikes : List Bike) : PriceSuggestion :=
  if similarBikes.length = 0 then
    { suggestedPrice := bike.buyPrice * (23/20), confidence := .low, marketData := none }
  else
    let n : ℚ := similarBikes.length
    let avgSellPrice := (similarBikes.map (fun b => b.sellPrice.getD 0)).sum / n
    let avgProfit := (similarBikes.map (fun b => b.profit.getD 0)).sum / n
    let avgDays := (similarBikes.map (fun b => daysToSellOr30 b.daysToSell)).sum / n
    let ageAdjustment := ((currentYear - bike.year : Int) : ℚ) * (1/20)
    let f1 := 1 - ageAdjustment
    let adjustmentFactor :=
      if bike.conditionRating ≠ 0 then f1 + (bike.conditionRating - 8) * (1/50)
      else f1
    { suggestedPrice := (jsRound (avgSellPrice * adjustmentFactor) : ℚ)
      confidence := if 3 ≤ similarBikes.length then .high else .medium
      marketData := some
        { avgSellPrice := jsRound avgSellPrice, avgProfit := jsRound avgProfit
          avgDaysToSell := jsRound avgDays, sampleSize := similarBikes.length } }

/-- The `Bike.find` query of `GET /api/ai/price-suggestion/:bikeId`:
same brand, sold, model year within ±2. -/
def comparableBikes (db : DB) (bike : Bike) : List Bike :=
  (db.bikes.map Prod.snd).filter (fun b =>
    b.brand = bike.brand && b.status = BikeStatus.sold &&
      decide (bike.year - 2 ≤ b.year) && decide (b.year ≤ bike.year + 2))

/-- `GET /api/ai/price-suggestion/:bikeId`. -/
def priceSuggestion (currentYear : Int) (db : DB) (bid : Nat) :
    Except String PriceSuggestion :=
  match lookup db.bikes bid with
  | none => .error "Bike not found"
  | some bike => .ok (generatePriceSuggestion currentYear bike (comparableBikes db bike))

/-- Store sanity mirroring MongoDB ObjectId generation: every stored id is
below the fresh-id counter, and customer ids are pairwise distinct. -/
def DB.wf (db : DB) : Prop :=
  (∀ p ∈ db.bikes, p.1 < db.nextId) ∧
  (∀ p ∈ db.customers, p.1 < db.nextId) ∧
  (∀ p ∈ db.sales, p.1 < db.nextId) ∧
  (∀ p ∈ db.payments, p.1 < db.nextId) ∧
  (db.customers.map Prod.fst).Nodup

instance (db : DB) : Decidable db.wf := by
  unfold DB.wf; infer_instance

/-! Concrete sample data, used to exercise the definitions on the spec's
scenarios (Scenario A: `buyPrice = 100000`, `sellingPrice = 130000`,
`discount = 5000`). -/

/-- An available bike with `buyPrice = 100000`. -/
def demoBike : Bike :=
  { bikeNumber := "KA01AB1234", brand := "Honda", model := "Shine", year := 2020
    buyPrice := 100000, sellPrice := none, profit := none, profitPercent := none
    status := .available, purchaseDate := 0, sellDate := none, daysToSell := none
    conditionRating := 8, saleId := none }

/-- A bike that has already been sold. -/
def demoSoldBike : Bike :=
  { demoBike with bikeNumber := "KA01AB9999", status := .sold }

/-- A store holding the single available `demoBike`. -/
def demoDB : DB :=
  { bikes := [(0, demoBike)], customers := [], sales := [], payments := [], nextId := 1 }

/-- A store holding the single already-sold `demoSoldBike`. -/
def demoSoldDB : DB :=
  { bikes := [(0, demoSoldBike)], customers := [], sales := [], payments := [], nextId := 1 }

/-- Scenario A's sale request against `demoBike`. -/
def demoSaleReq : SaleRequest :=
  { bikeId := 0, buyerName := "Asha", buyerPhone := "9000000001"
    buyerAddress := "Hubli", sellingPrice := 130000, discount := 5000
    paymentMode := .cash, notes := none }

/-- A fixed request context. -/
def demoEnv : Env :=
  { year := 2025, month := 5, nowMs := 86400000, rand := 7, userId := 42 }

/-- A customer who has bought one bike for 125000. -/
def demoCustomer : Customer :=
  { name := "Ravi", phone := "9000000002", email := none, address := "Hubli"
    totalSpent := 125000, totalBikesBought := 1, lastPurchaseDate := none
    customerType := .regular, isActive := true }

/-- A store holding the single `demoCustomer`. -/
def demoCustDB : DB :=
  { bikes := [], customers := [(0, demoCustomer)], sales := [], payments := [], nextId := 1 }

/-- An update request for `demoCustomer` that zeroes both aggregates. -/
def demoCustZeroReq : CustomerUpdateRequest :=
  { name := "Ravi", phone := "9000000002", address := "Hubli", email := none
    totalSpent := some 0, totalBikesBought := some 0, isActive := none }

/-- A payment ledger with nothing collected yet. -/
def demoPayment : Payment :=
  { saleId := 0, bikeId := 0, customerId := 0, totalAmount := 100000
    paidAmount := 0, remainingAmount := 100000, status := .pending
    paymentLogs := [], dueDate := none, notes := none }

/-- A payment whose `totalAmount` is zero (the schema allows it: `min: 0`). -/
def demoZeroPayment : Payment :=
  { saleId := 0, bikeId := 0, customerId := 0, totalAmount := 0
    paidAmount := 0, remainingAmount := 0, status := .completed
    paymentLogs := [], dueDate := none, notes := none }

/-- A well-formed bike update request (year 2021, buy price 50000). -/
def demoBikeReq : BikeRequest :=
  { bikeNumber := "KA01AB1234", brand := "Honda", model := "Shine", year := 2021
    buyPrice := 50000, purchaseDate := some 0, status := none, sellPrice := none
    conditionRating := none }

theorem lookup_nil {α : Type} {i : Nat} : lookup ([] : List (Nat × α)) i = none := rfl

theorem lookup_cons {α : Type} {a : Nat × α} {l : List (Nat × α)} {i : Nat} :
    lookup (a :: l) i = if a.1 = i then some a.2 else lookup l i := by
  by_cases h : a.1 = i <;> simp [lookup, List.find?_cons, h]

theorem lookup_singleton {α : Type} {i : Nat} {v : α} :
    lookup [(i, v)] i = some v := by
  simp [lookup_cons]

theorem lookup_append_of_none {α : Type} {l l' : List (Nat × α)} {i : Nat}
    (h : lookup l i = none) : lookup (l ++ l') i = lookup l' i := by
  induction l with
  | nil => simp
  | cons a t ih =>
    rcases h' : decide (a.1 = i) with _ | _
    · simp only [List.cons_append, lookup_cons, if_neg (of_decide_eq_false h')]
      exact ih (by simpa [lookup_cons, of_decide_eq_false h'] using h)
    · exfalso
      simp [lookup_cons, if_pos (of_decide_eq_true h')] at h

theorem lookup_eq_none_of_bound {α : Type} {l : List (Nat × α)} {n : Nat}
    (h : ∀ p ∈ l, p.1 < n) : lookup l n = none := by
  induction l with
  | nil => rfl
  | cons a t ih =>
    have ha : a.1 ≠ n := Nat.ne_of_lt (h a (by simp))
    simp only [lookup_cons, if_neg ha]
    exact ih (fun p hp => h p (by simp [hp]))

theorem setEntry_eq_of_lookup_none {α : Type} {l : List (Nat × α)} {i : Nat} {v : α}
    (h : lookup l i = none) : setEntry l i v = l := by
  induction l with
  | nil => rfl
  | cons a t ih =>
    rcases h' : decide (a.1 = i) with _ | _
    · have hne := of_decide_eq_false h'
      simp only [setEntry, List.map_cons, if_neg hne]
      have := ih (by simpa [lookup_cons, hne] using h)
      simpa [setEntry] using this
    · exfalso
      simp [lookup_cons, if_pos (of_decide_eq_true h')] at h

theorem setEntry_cons {α : Type} {a : Nat × α} {l : List (Nat × α)} {i : Nat} {v : α} :
    setEntry (a :: l) i v = (if a.1 = i then (i, v) else a) :: setEntry l i v := rfl

theorem lookup_setEntry_self {α : Type} {l : List (Nat × α)} {i : Nat} {b v : α}
    (h : lookup l i = some b) : lookup (setEntry l i v) i = some v := by
  induction l with
  | nil => simp [lookup] at h
  | cons a t ih =>
    by_cases ha : a.1 = i
    · rw [setEntry_cons, if_pos ha, lookup_cons]; simp
    · rw [setEntry_cons, if_neg ha, lookup_cons, if_neg ha]
      rw [lookup_cons, if_neg ha] at h
      exact ih h

theorem lookup_setEntry_ne {α : Type} {l : List (Nat × α)} {i j : Nat} {v : α}
    (h : j ≠ i) : lookup (setEntry l i v) j = lookup l j := by
  induction l with
  | nil => rfl
  | cons a t ih =>
    by_cases ha : a.1 = i
    · rw [setEntry_cons, if_pos ha, lookup_cons, lookup_cons, ih]
      have h2 : a.1 ≠ j := by rw [ha]; exact Ne.symm h
      rw [if_neg (show ((i, v) : Nat × α).1 ≠ j from Ne.symm h), if_neg h2]
    · rw [setEntry_cons, if_neg ha, lookup_cons, lookup_cons, ih]

theorem setEntry_append {α : Type} {l l' : List (Nat × α)} {i : Nat} {v : α} :
    setEntry (l ++ l') i v = setEntry l i v ++ setEntry l' i v := by
  simp [setEntry]

theorem lookup_filter_ne {α : Type} {l : List (Nat × α)} {d i : Nat} (h : i ≠ d) :
    lookup (l.filter (fun p => p.1 ≠ d)) i = lookup l i := by
  induction l with
  | nil => rfl
  | cons a t ih =>
    by_cases ha : a.1 = d
    · have hai : a.1 ≠ i := fun hc => h (hc ▸ ha)
      have hcond : (decide (a.1 ≠ d)) = false := by simp [ha]
      rw [List.filter_cons, lookup_cons, if_neg hai]
      simp only [hcond, Bool.false_eq_true, if_false]
      exact ih
    · have hcond : (decide (a.1 ≠ d)) = true := by simp [ha]
      rw [List.filter_cons]
      simp only [hcond, if_true]
      rw [lookup_cons, lookup_cons, ih]

theorem lookup_eq_of_mem_nodup {α : Type} {l : List (Nat × α)} {i : Nat} {v : α}
    (hnd : (l.map Prod.fst).Nodup) (hm : (i, v) ∈ l) : lookup l i = some v := by
  induction l with
  | nil => simp at hm
  | cons a t ih =>
    rw [List.map_cons, List.nodup_cons] at hnd
    rcases List.mem_cons.mp hm with h | h
    · rw [← h, lookup_cons]; simp
    · have hi : i ∈ t.map Prod.fst := List.mem_map.mpr ⟨(i, v), h, rfl⟩
      have ha : a.1 ≠ i := fun hc => hnd.1 (hc ▸ hi)
      rw [lookup_cons, if_neg ha]
      exact ih hnd.2 h

theorem createSaleCore_ok_spec {env : Env} {req : SaleRequest} {bike : Bike}
    {custId : Nat} {cust : Customer} {dbC db' : DB} {sid : Nat}
    (h : createSaleCore env req bike custId cust dbC = (db', .ok sid)) :
    sid = dbC.nextId ∧ 0 ≤ req.sellingPrice ∧ 0 ≤ req.discount ∧
    0 ≤ req.sellingPrice - req.discount ∧
    db'.sales = setEntry (dbC.sales ++ [(sid, workflowSale env req custId bike)]) sid
      { workflowSale env req custId bike with
        invoicePath := some (invoicePathOf (workflowSale env req custId bike)) } ∧
    db'.bikes = setEntry dbC.bikes req.bikeId (workflowBike env req bike sid) ∧
    db'.customers = setEntry dbC.customers custId (workflowCustomer env req cust) ∧
    db'.payments = (if 0 < req.sellingPrice - req.discount
      then dbC.payments ++ [(dbC.nextId + 1, workflowPayment req sid custId)]
      else dbC.payments) := by
  simp only [createSaleCore] at h
  split at h
  · simp at h
  case isFalse hv =>
    have hdoc : validSaleDoc (workflowSale env req custId bike) = true := by
      by_contra hx
      exact hv (by simpa using hx)
    have hineq : (0 ≤ req.sellingPrice ∧ 0 ≤ req.discount) ∧
        req.discount ≤ req.sellingPrice := by
      simpa [validSaleDoc, workflowSale] using hdoc
    rw [Prod.ext_iff] at h
    obtain ⟨hdb, hok⟩ := h
    obtain rfl : dbC.nextId = sid := by simpa using hok
    subst hdb
    refine ⟨rfl, hineq.1.1, hineq.1.2, sub_nonneg.mpr hineq.2, ?_, ?_, ?_, ?_⟩ <;>
      simp [apply_ite DB.sales, apply_ite DB.bikes, apply_ite DB.customers,
        apply_ite DB.payments]

theorem createSale_ok_spec {env : Env} {req : SaleRequest} {db db' : DB} {sid : Nat}
    (hwf : db.wf) (h : createSale env req db = (db', .ok sid)) :
    ∃ bike custId cust,
      lookup db.bikes req.bikeId = some bike ∧
      bike.status = .available ∧
      0 ≤ req.sellingPrice ∧ 0 ≤ req.discount ∧ 0 ≤ req.sellingPrice - req.discount ∧
      db.nextId ≤ sid ∧
      lookup db'.sales sid =
        some { workflowSale env req custId bike with
               invoicePath := some (invoicePathOf (workflowSale env req custId bike)) } ∧
      lookup db'.bikes req.bikeId = some (workflowBike env req bike sid) ∧
      lookup db'.customers custId = some (workflowCustomer env req cust) ∧
      db'.payments = (if 0 < req.sellingPrice - req.discount
        then db.payments ++ [(sid + 1, workflowPayment req sid custId)]
        else db.payments) ∧
      (db.customers.find? (fun p => p.2.phone = req.buyerPhone) = some (custId, cust) ∨
        (db.customers.find? (fun p => p.2.phone = req.buyerPhone) = none ∧
         custId = db.nextId ∧ cust = newCustomer req)) := by
  obtain ⟨hwb, hwc, hws, hwp, hnd⟩ := hwf
  simp only [createSale] at h
  split at h
  · simp at h
  split at h
  · simp at h
  next bike hbike =>
    split at h
    · simp at h
    next hst =>
      have hst' : bike.status = .available := not_ne_iff.mp (by simpa using hst)
      split at h
      next cid c hfind =>
        obtain ⟨hsid, h1, h2, h3, hsales, hbikes, hcusts, hpays⟩ := createSaleCore_ok_spec h
        have hnone : lookup db.sales sid = none :=
          lookup_eq_none_of_bound (fun p hp => hsid ▸ hws p hp)
        refine ⟨bike, cid, c, hbike, hst', h1, h2, h3, le_of_eq hsid.symm, ?_, ?_, ?_, ?_,
          Or.inl hfind⟩
        · rw [hsales, setEntry_append, setEntry_eq_of_lookup_none hnone,
            show setEntry [(sid, workflowSale env req cid bike)] sid
              { workflowSale env req cid bike with
                invoicePath := some (invoicePathOf (workflowSale env req cid bike)) } =
              [(sid, { workflowSale env req cid bike with
                invoicePath := some (invoicePathOf (workflowSale env req cid bike)) })] by
              simp [setEntry],
            lookup_append_of_none hnone, lookup_singleton]
        · rw [hbikes]
          exact lookup_setEntry_self hbike
        · rw [hcusts]
          exact lookup_setEntry_self
            (lookup_eq_of_mem_nodup hnd (List.mem_of_find?_eq_some hfind))
        · rw [hpays, hsid]
      next hfind =>
        obtain ⟨hsid, h1, h2, h3, hsales, hbikes, hcusts, hpays⟩ := createSaleCore_ok_spec h
        have hsales0 : (dbWithNewCustomer db req).sales = db.sales := rfl
        have hpay0 : (dbWithNewCustomer db req).payments = db.payments := rfl
        have hbik0 : (dbWithNewCustomer db req).bikes = db.bikes := rfl
        have hnext : (dbWithNewCustomer db req).nextId = db.nextId + 1 := rfl
        have hnone : lookup db.sales sid = none :=
          lookup_eq_none_of_bound (fun p hp =>
            lt_trans (hws p hp) (by rw [hsid, hnext]; exact Nat.lt_succ_self _))
        have hcnone : lookup db.customers db.nextId = none :=
          lookup_eq_none_of_bound hwc
        have hclook : lookup (dbWithNewCustomer db req).customers db.nextId =
            some (newCustomer req) := by
          rw [show (dbWithNewCustomer db req).customers =
              db.customers ++ [(db.nextId, newCustomer req)] from rfl,
            lookup_append_of_none hcnone, lookup_singleton]
        refine ⟨bike, db.nextId, newCustomer req, hbike, hst', h1, h2, h3, ?_, ?_, ?_, ?_, ?_,
          Or.inr ⟨hfind, rfl, rfl⟩⟩
        · rw [hsid, hnext]; exact Nat.le_succ _
        · rw [hsales, hsales0, setEntry_append, setEntry_eq_of_lookup_none hnone,
            show setEntry [(sid, workflowSale env req db.nextId bike)] sid
              { workflowSale env req db.nextId bike with
                invoicePath := some (invoicePathOf (workflowSale env req db.nextId bike)) } =
              [(sid, { workflowSale env req db.nextId bike with
                invoicePath := some (invoicePathOf (workflowSale env req db.nextId bike)) })] by
              simp [setEntry],
            lookup_append_of_none hnone, lookup_singleton]
        · rw [hbikes, hbik0]
          exact lookup_setEntry_self hbike
        · rw [hcusts]
          exact lookup_setEntry_self hclook
        · rw [hpays, hpay0, hsid, hnext]

theorem createSaleCore_snd_ok {env : Env} {req : SaleRequest} {bike : Bike}
    {custId : Nat} {cust : Customer} {dbC : DB}
    (hdoc : validSaleDoc (workflowSale env req custId bike) = true) :
    (createSaleCore env req bike custId cust dbC).2 = Except.ok dbC.nextId := by
  simp only [createSaleCore]
  rw [if_neg (by simp [hdoc])]

theorem createSale_eq_core_new {env : Env} {req : SaleRequest} {db : DB} {bike : Bike}
    (hval : validSaleRequest req = true)
    (hlook : lookup db.bikes req.bikeId = some bike)
    (hst : bike.status = .available)
    (hfind : db.customers.find? (fun p => p.2.phone = req.buyerPhone) = none) :
    createSale env req db =
      createSaleCore env req bike db.nextId (newCustomer req) (dbWithNewCustomer db req) := by
  rw [createSale, if_neg (by simp [hval]), hlook]
  simp only [hfind, hst]
  simp

theorem demo_createSale_snd : (createSale demoEnv demoSaleReq demoDB).2 = Except.ok 2 := by
  have hlook : lookup demoDB.bikes demoSaleReq.bikeId = some demoBike := rfl
  have hfind : demoDB.customers.find?
      (fun p => p.2.phone = demoSaleReq.buyerPhone) = none := rfl
  rw [createSale_eq_core_new (by decide) hlook rfl hfind, createSaleCore_snd_ok]
  · rfl
  · norm_num [validSaleDoc, workflowSale, demoSaleReq, demoBike]

/-- C1: for every successfully created sale, the persisted Sale record
satisfies `finalAmount = sellingPrice − discount`,
`profit = sellingPrice − discount − bike.buyPrice` and
`profitPercent = profit / bike.buyPrice × 100`, where `bike` is the
referenced bike at sale time (its buy price taken positive, where the
rational model coincides with the JS float arithmetic). -/
theorem C1_sale_record_amounts {env : Env} {req : SaleRequest} {db db' : DB}
    {sid : Nat} {bike : Bike}
    (hwf : db.wf) (hbike : lookup db.bikes req.bikeId = some bike)
    (hbp : 0 < bike.buyPrice)
    (h : createSale env req db = (db', .ok sid)) :
    ∃ s, lookup db'.sales sid = some s ∧
      s.finalAmount = req.sellingPrice - req.discount ∧
      s.profit = req.sellingPrice - req.discount - bike.buyPrice ∧
      s.profitPercent = s.profit / bike.buyPrice * 100 := by
  obtain ⟨bike', custId, cust, hbike', hst, h1, h2, h3, hle, hsale, hbk, hcu, hpay, hd⟩ :=
    createSale_ok_spec hwf h
  have hbb : bike' = bike := Option.some.inj (hbike'.symm.trans hbike)
  subst hbb
  exact ⟨_, hsale, rfl, rfl, rfl⟩

/-- Witness for C1 at Scenario A's inputs (selling price 130000,
discount 5000 against a buy price of 100000). -/
theorem C1_sale_record_amounts_witness :
    ∃ s, lookup (createSale demoEnv demoSaleReq demoDB).1.sales 2 = some s ∧
      s.finalAmount = demoSaleReq.sellingPrice - demoSaleReq.discount ∧
      s.profit = demoSaleReq.sellingPrice - demoSaleReq.discount - demoBike.buyPrice ∧
      s.profitPercent = s.profit / demoBike.buyPrice * 100 :=
  @C1_sale_record_amounts demoEnv demoSaleReq demoDB
    (createSale demoEnv demoSaleReq demoDB).1 2 demoBike
    (by decide) rfl (by decide)
    (Prod.ext_iff.mpr ⟨rfl, demo_createSale_snd⟩)

/-- C2: a successful sale with positive final amount creates exactly one
Payment, bootstrapped as fully paid (`totalAmount = paidAmount =
finalAmount`, `remainingAmount = 0`, derived status `completed`); with a
zero final amount no Payment is created. -/
theorem C2_payment_bootstrap {env : Env} {req : SaleRequest} {db db' : DB} {sid : Nat}
    (hwf : db.wf) (h : createSale env req db = (db', .ok sid)) :
    (0 < req.sellingPrice - req.discount →
      ∃ pid pay, db'.payments = db.payments ++ [(pid, pay)] ∧
        pay.saleId = sid ∧
        pay.totalAmount = req.sellingPrice - req.discount ∧
        pay.paidAmount = req.sellingPrice - req.discount ∧
        pay.remainingAmount = 0 ∧
        pay.status = .completed) ∧
    (req.sellingPrice - req.discount = 0 → db'.payments = db.payments) := by
  obtain ⟨bike, custId, cust, hbike, hst, h1, h2, h3, hle, hsale, hbk, hcu, hpay, hd⟩ :=
    createSale_ok_spec hwf h
  constructor
  · intro hpos
    rw [hpay, if_pos hpos]
    refine ⟨sid + 1, workflowPayment req sid custId, rfl, rfl, rfl, rfl, ?_, ?_⟩
    · simp [workflowPayment, paymentPreSave]
    · simp [workflowPayment, paymentPreSave, hpos.ne', lt_irrefl]
  · intro hzero
    rw [hpay, if_neg (by rw [hzero]; exact lt_irrefl 0)]

/-- Witness for C2: Scenario A's sale (final amount 125000) yields a
completed Payment over 125000. -/
theorem C2_payment_bootstrap_witness :
    ∃ pid pay, (createSale demoEnv demoSaleReq demoDB).1.payments =
        demoDB.payments ++ [(pid, pay)] ∧
      pay.saleId = 2 ∧
      pay.totalAmount = demoSaleReq.sellingPrice - demoSaleReq.discount ∧
      pay.paidAmount = demoSaleReq.sellingPrice - demoSaleReq.discount ∧
      pay.remainingAmount = 0 ∧
      pay.status = .completed :=
  (@C2_payment_bootstrap demoEnv demoSaleReq demoDB
    (createSale demoEnv demoSaleReq demoDB).1 2
    (by decide) (Prod.ext_iff.mpr ⟨rfl, demo_createSale_snd⟩)).1
    (by norm_num [demoSaleReq])

/-- C5: a sale request referencing an existing bike whose status is not
`available` is rejected with an error, and the whole store is left
unchanged (no Sale, no Customer creation or mutation, no Bike change). -/
theorem C5_unavailable_bike_rejected {env : Env} {req : SaleRequest} {db : DB} {bike : Bike}
    (hbike : lookup db.bikes req.bikeId = some bike)
    (hst : bike.status ≠ .available) :
    (createSale env req db).1 = db ∧ ∃ msg, (createSale env req db).2 = .error msg := by
  rw [createSale]
  by_cases hval : validSaleRequest req = true
  · rw [if_neg (by simp [hval]), hbike]
    refine ⟨?_, "Bike is not available for sale", ?_⟩ <;> simp [hst]
  · rw [if_pos (by simp [hval])]
    exact ⟨rfl, "Invalid input", rfl⟩

/-- Witness for C5: selling the already-sold `demoSoldBike` is rejected
and the store is untouched (Scenario B). -/
theorem C5_unavailable_bike_rejected_witness :
    (createSale demoEnv demoSaleReq demoSoldDB).1 = demoSoldDB ∧
    ∃ msg, (createSale demoEnv demoSaleReq demoSoldDB).2 = .error msg :=
  @C5_unavailable_bike_rejected demoEnv demoSaleReq demoSoldDB demoSoldBike rfl (by decide)

/-- C7 counterexample: a Payment with `totalAmount = paidAmount = 0` (both
allowed by the schema's `min: 0`) is persisted with status `pending`
although `paidAmount = totalAmount`, refuting the claimed
"status is completed iff paidAmount = totalAmount". -/
theorem C7_zero_payment_counterexample :
    (paymentPreSave demoZeroPayment).status = .pending ∧
    demoZeroPayment.paidAmount = demoZeroPayment.totalAmount ∧
    (paymentPreSave demoZeroPayment).status ≠ .completed := by
  refine ⟨?_, ?_, ?_⟩ <;> decide

/-- C7 (amended): on every save of a Payment, the persisted record
satisfies `remainingAmount = totalAmount − paidAmount`, and — under the
schema bound `paidAmount ≥ 0` — status is `pending` iff `paidAmount = 0`,
`partial` iff `0 < paidAmount < totalAmount`, and `completed` iff
`paidAmount > 0` and `paidAmount ≥ totalAmount`, regardless of the values
the caller supplied for `remainingAmount` or `status`. -/
theorem C7_payment_presave_derivation (p : Payment) (hp : 0 ≤ p.paidAmount) :
    (paymentPreSave p).remainingAmount = p.totalAmount - p.paidAmount ∧
    ((paymentPreSave p).status = .pending ↔ p.paidAmount = 0) ∧
    ((paymentPreSave p).status = .partialPaid ↔
      0 < p.paidAmount ∧ p.paidAmount < p.totalAmount) ∧
    ((paymentPreSave p).status = .completed ↔
      0 < p.paidAmount ∧ p.totalAmount ≤ p.paidAmount) := by
  by_cases h0 : p.paidAmount = 0
  · simp [paymentPreSave, h0]
  · have hpos : 0 < p.paidAmount := lt_of_le_of_ne hp (Ne.symm h0)
    by_cases hlt : p.paidAmount < p.totalAmount
    · simp [paymentPreSave, h0, hlt, hpos, not_le.mpr hlt]
    · simp [paymentPreSave, h0, hlt, hpos, not_lt.mp hlt]

/-- Witness for C7 at a pending ledger over 100000. -/
theorem C7_payment_presave_derivation_witness :
    (paymentPreSave demoPayment).remainingAmount =
      demoPayment.totalAmount - demoPayment.paidAmount ∧
    ((paymentPreSave demoPayment).status = .pending ↔ demoPayment.paidAmount = 0) ∧
    ((paymentPreSave demoPayment).status = .partialPaid ↔
      0 < demoPayment.paidAmount ∧ demoPayment.paidAmount < demoPayment.totalAmount) ∧
    ((paymentPreSave demoPayment).status = .completed ↔
      0 < demoPayment.paidAmount ∧ demoPayment.totalAmount ≤ demoPayment.paidAmount) :=
  C7_payment_presave_derivation demoPayment (by decide)

/-- C8: on every save of a Customer, `customerType` is derived solely from
`totalSpent` (VIP iff ≥ 500000, Premium iff 200000 ≤ totalSpent < 500000,
Regular otherwise), recomputed unconditionally — the statement quantifies
over customers with arbitrary incoming `customerType`, and `totalSpent`
itself is untouched. -/
theorem C8_customer_type_derivation (c : Customer) :
    ((customerPreSave c).customerType = .vip ↔ 500000 ≤ c.totalSpent) ∧
    ((customerPreSave c).customerType = .premium ↔
      200000 ≤ c.totalSpent ∧ c.totalSpent < 500000) ∧
    ((customerPreSave c).customerType = .regular ↔ c.totalSpent < 200000) ∧
    (customerPreSave c).totalSpent = c.totalSpent := by
  by_cases h5 : 500000 ≤ c.totalSpent
  · have h2 : (200000 : ℚ) ≤ c.totalSpent := le_trans (by norm_num) h5
    simp [customerPreSave, h5, not_lt.mpr h5, not_lt.mpr h2]
  · by_cases h2 : 200000 ≤ c.totalSpent
    · simp [customerPreSave, h5, h2, not_le.mp h5]
    · simp [customerPreSave, h5, h2, not_le.mp h2]

/-- C6 counterexample: an amount of 0.005 does not exceed the remaining
100000 of `demoPayment`, yet the route's validation (`amount` ≥ 0.01)
rejects the call, so the claim's "otherwise exactly one log entry with
that amount is appended" fails as stated. -/
theorem C6_small_amount_counterexample :
    recordPayment demoPayment (1/200) .cash 0 none 7 = .error "Invalid input" ∧
    (1/200 : ℚ) ≤ demoPayment.remainingAmount := by
  constructor
  · rw [recordPayment, if_pos (by norm_num)]
  · norm_num [demoPayment]

/-- C6 (amended): for every recordPayment call on an existing Payment whose
amount passes the route's input validation (`amount ≥ 0.01`): if the amount
exceeds the current `remainingAmount` the call is rejected (leaving the
Payment unchanged); otherwise exactly one log entry carrying that amount is
appended, `paidAmount` increases by exactly that amount, and
`remainingAmount` and `status` are recomputed by the pre-save hook. -/
theorem C6_record_payment (p : Payment) (amount : ℚ) (m : PayMethod) (d : Int)
    (note : Option String) (u : Nat) (hval : 1/100 ≤ amount) :
    (p.remainingAmount < amount →
      recordPayment p amount m d note u =
        .error "Payment amount cannot exceed remaining amount") ∧
    (amount ≤ p.remainingAmount →
      ∃ p', recordPayment p amount m d note u = .ok p' ∧
        p'.paymentLogs = p.paymentLogs ++
          [{ amount := amount, paymentDate := d, paymentMethod := m
             notes := note, receivedBy := u }] ∧
        p'.paidAmount = p.paidAmount + amount ∧
        p'.remainingAmount = p.totalAmount - p'.paidAmount ∧
        p'.status = (if p'.paidAmount = 0 then .pending
          else if p'.paidAmount < p.totalAmount then .partialPaid
          else .completed)) := by
  constructor
  · intro hex
    rw [recordPayment, if_neg (not_not_intro hval), if_pos hex]
  · intro hle
    rw [recordPayment, if_neg (not_not_intro hval), if_neg (not_lt.mpr hle)]
    exact ⟨_, rfl, rfl, rfl, rfl, rfl⟩

/-- Witness for C6: recording 500 against the pending 100000 ledger. -/
theorem C6_record_payment_witness :
    ∃ p', recordPayment demoPayment 500 .cash 0 none 7 = .ok p' ∧
      p'.paymentLogs = demoPayment.paymentLogs ++
        [{ amount := 500, paymentDate := 0, paymentMethod := .cash
           notes := none, receivedBy := 7 }] ∧
      p'.paidAmount = demoPayment.paidAmount + 500 ∧
      p'.remainingAmount = demoPayment.totalAmount - p'.paidAmount ∧
      p'.status = (if p'.paidAmount = 0 then .pending
        else if p'.paidAmount < demoPayment.totalAmount then .partialPaid
        else .completed) :=
  (C6_record_payment demoPayment 500 .cash 0 none 7 (by norm_num)).2
    (by norm_num [demoPayment])

/-- C3 counterexample: in Scenario A (buy price 100000, selling price
130000, discount 5000) the bike record persisted by the workflow stores
`profit = 30000` — the Bike pre-save hook's `sellPrice − buyPrice` —
not the claimed `sellingPrice − discount − buyPrice = 25000`. -/
theorem C3_bike_profit_counterexample :
    ∃ b', lookup (createSale demoEnv demoSaleReq demoDB).1.bikes 0 = some b' ∧
      b'.profit = some 30000 ∧
      b'.profit ≠
        some (demoSaleReq.sellingPrice - demoSaleReq.discount - demoBike.buyPrice) := by
  obtain ⟨bike', custId, cust, hbike', hst, h1, h2, h3, hle, hsale, hbk, hcu, hpay, hd⟩ :=
    createSale_ok_spec (show demoDB.wf by decide)
      (Prod.ext_iff.mpr ⟨rfl, demo_createSale_snd⟩)
  have hbb : bike' = demoBike := Option.some.inj (hbike'.symm.trans
    (show lookup demoDB.bikes demoSaleReq.bikeId = some demoBike from rfl))
  subst hbb
  refine ⟨workflowBike demoEnv demoSaleReq demoBike 2, hbk, ?_, ?_⟩ <;>
    norm_num [workflowBike, bikePreSave, demoBike, demoSaleReq]

/-- C3 (amended): after a successful sale the mutated bike stores
`sellPrice = sellingPrice`, `status = 'sold'`, `sellDate` and `saleId` as
claimed, but the Bike pre-save hook overwrites the handler's profit
fields: the stored `profit` is `sellingPrice − buyPrice` (the discount is
dropped) and `profitPercent = (sellingPrice − buyPrice) / buyPrice × 100`;
in Scenario A the stored profit is 30000 and profitPercent 30. -/
theorem C3_bike_mutation {env : Env} {req : SaleRequest} {db db' : DB}
    {sid : Nat} {bike : Bike}
    (hwf : db.wf) (hbike : lookup db.bikes req.bikeId = some bike)
    (hsp : 0 < req.sellingPrice) (hbp : 0 < bike.buyPrice)
    (h : createSale env req db = (db', .ok sid)) :
    ∃ b', lookup db'.bikes req.bikeId = some b' ∧
      b'.sellPrice = some req.sellingPrice ∧
      b'.profit = some (req.sellingPrice - bike.buyPrice) ∧
      b'.profitPercent = some ((req.sellingPrice - bike.buyPrice) / bike.buyPrice * 100) ∧
      b'.status = .sold ∧ b'.sellDate = some env.nowMs ∧ b'.saleId = some sid := by
  obtain ⟨bike', custId, cust, hbike', hst, h1, h2, h3, hle, hsale, hbk, hcu, hpay, hd⟩ :=
    createSale_ok_spec hwf h
  cases Option.some.inj (hbike'.symm.trans hbike)
  refine ⟨_, hbk, ?_, ?_, ?_, ?_, ?_, ?_⟩ <;>
    simp [workflowBike, bikePreSave, hsp.ne', hbp.ne']

/-- Witness for C3's amended statement at Scenario A's inputs. -/
theorem C3_bike_mutation_witness :
    ∃ b', lookup (createSale demoEnv demoSaleReq demoDB).1.bikes demoSaleReq.bikeId =
        some b' ∧
      b'.sellPrice = some demoSaleReq.sellingPrice ∧
      b'.profit = some (demoSaleReq.sellingPrice - demoBike.buyPrice) ∧
      b'.profitPercent =
        some ((demoSaleReq.sellingPrice - demoBike.buyPrice) / demoBike.buyPrice * 100) ∧
      b'.status = .sold ∧ b'.sellDate = some demoEnv.nowMs ∧ b'.saleId = some 2 :=
  @C3_bike_mutation demoEnv demoSaleReq demoDB
    (createSale demoEnv demoSaleReq demoDB).1 2 demoBike
    (by decide) rfl (by decide) (by decide)
    (Prod.ext_iff.mpr ⟨rfl, demo_createSale_snd⟩)

/-- C4 counterexample: the customer update endpoint accepts a request that
zeroes both running aggregates of `demoCustomer` (totalSpent 125000 → 0,
totalBikesBought 1 → 0), refuting "the only operation that changes them is
the Sale Workflow; no other public operation can modify or decrease
them". -/
theorem C4_update_endpoint_counterexample :
    (updateCustomer demoCustDB 0 demoCustZeroReq).2 = .ok () ∧
    (lookup (updateCustomer demoCustDB 0 demoCustZeroReq).1.customers 0).map
      Customer.totalSpent = some 0 ∧
    (lookup (updateCustomer demoCustDB 0 demoCustZeroReq).1.customers 0).map
      Customer.totalBikesBought = some 0 ∧
    demoCustomer.totalSpent = 125000 ∧ demoCustomer.totalBikesBought = 1 := by
  refine ⟨rfl, ?_, ?_, ?_, ?_⟩ <;> decide

/-- C4 (amended): the Sale Workflow only grows the aggregates of the
matched customer — `totalSpent` by the (non-negative) final amount and
`totalBikesBought` by one — but they are not otherwise immutable: the
customer update endpoint `Object.assign`s the request body, so a valid
update request carrying the aggregate fields overwrites them with
arbitrary (schema-respecting) values, including decreases. -/
theorem C4_customer_aggregates :
    (∀ (env : Env) (req : SaleRequest) (db db' : DB) (sid cid : Nat) (c : Customer),
      db.wf →
      db.customers.find? (fun p => p.2.phone = req.buyerPhone) = some (cid, c) →
      createSale env req db = (db', .ok sid) →
      ∃ c', lookup db'.customers cid = some c' ∧
        c'.totalSpent = c.totalSpent + (req.sellingPrice - req.discount) ∧
        c'.totalBikesBought = c.totalBikesBought + 1 ∧
        c.totalSpent ≤ c'.totalSpent) ∧
    (∀ (db : DB) (cid : Nat) (c : Customer) (req : CustomerUpdateRequest) (v : ℚ) (n : Nat),
      lookup db.customers cid = some c →
      validCustomerUpdate req = true →
      req.phone = c.phone →
      req.totalSpent = some v → 0 ≤ v →
      req.totalBikesBought = some n →
      ∃ c', lookup (updateCustomer db cid req).1.customers cid = some c' ∧
        (updateCustomer db cid req).2 = .ok () ∧
        c'.totalSpent = v ∧ c'.totalBikesBought = n) := by
  constructor
  · intro env req db db' sid cid c hwf hfind h
    obtain ⟨bike, custId, cust, hbike, hst, h1, h2, h3, hle, hsale, hbk, hcu, hpay, hd⟩ :=
      createSale_ok_spec hwf h
    rcases hd with hd | ⟨hd, _, _⟩
    · have hpair := Option.some.inj (hd.symm.trans hfind)
      injection hpair with h9 h10
      subst h9
      subst h10
      exact ⟨_, hcu, rfl, rfl, le_add_of_nonneg_right h3⟩
    · rw [hd] at hfind
      cases hfind
  · intro db cid c req v n hlook hval hphone hv hv0 hn
    have hts : 0 ≤ req.totalSpent.getD c.totalSpent := by
      rw [hv]
      exact hv0
    rw [updateCustomer, if_neg (not_not_intro hval), hlook]
    split
    · exact absurd (by assumption : some c = none) (by simp)
    next c2 heq =>
      cases Option.some.inj heq
      rw [if_neg (fun hcon => hcon.1 hphone), if_neg (not_not_intro hts)]
      refine ⟨_, lookup_setEntry_self hlook, rfl, ?_, ?_⟩
      · simp [customerPreSave, hv]
      · simp [customerPreSave, hn]

/-- Witness for C4's amended statement: zeroing `demoCustomer`'s
aggregates through the update endpoint. -/
theorem C4_customer_aggregates_witness :
    ∃ c', lookup (updateCustomer demoCustDB 0 demoCustZeroReq).1.customers 0 = some c' ∧
      (updateCustomer demoCustDB 0 demoCustZeroReq).2 = .ok () ∧
      c'.totalSpent = 0 ∧ c'.totalBikesBought = 0 :=
  C4_customer_aggregates.2 demoCustDB 0 demoCustomer demoCustZeroReq 0 0
    rfl (by decide) rfl rfl (by norm_num) rfl

/-- C9: with at least one comparable sold bike (same brand, sold, year
within ±2) the suggestion is the comparables' average sell price times
`1 − 0.05·(currentYear − year) + 0.02·(conditionRating − 8)`, rounded;
confidence is `high` iff the sample has at least 3 bikes; with no
comparable bike the suggestion is `buyPrice × 1.15` at `low` confidence.
(`conditionRating ≥ 1` is the schema's lower bound; a null `sellPrice`
coerces to 0 in the JS average.) -/
theorem C9_price_suggestion {cy : Int} {db : DB} {bid : Nat} {bike : Bike}
    (hbike : lookup db.bikes bid = some bike) (hcr : 1 ≤ bike.conditionRating) :
    ∃ s, priceSuggestion cy db bid = .ok s ∧
      (comparableBikes db bike = [] →
        s.suggestedPrice = bike.buyPrice * (23/20) ∧ s.confidence = .low) ∧
      (comparableBikes db bike ≠ [] →
        s.suggestedPrice = (jsRound
          ((((comparableBikes db bike).map (fun b => b.sellPrice.getD 0)).sum /
              ((comparableBikes db bike).length : ℚ)) *
            (1 - ((cy - bike.year : Int) : ℚ) * (1/20) +
              (bike.conditionRating - 8) * (1/50))) : ℚ)) ∧
      (s.confidence = .high ↔ 3 ≤ (comparableBikes db bike).length) := by
  have hne : bike.conditionRating ≠ 0 := by
    intro hz
    rw [hz] at hcr
    norm_num at hcr
  rw [priceSuggestion, hbike]
  refine ⟨_, rfl, ?_, ?_, ?_⟩
  · intro h0
    rw [generatePriceSuggestion, if_pos (by simp [h0])]
    exact ⟨rfl, rfl⟩
  · intro hne0
    have hlen : ¬ ((comparableBikes db bike).length = 0) :=
      fun h => hne0 (List.length_eq_zero.mp h)
    simp [generatePriceSuggestion, hlen, hne]
  · by_cases h0 : (comparableBikes db bike).length = 0
    · rw [generatePriceSuggestion, if_pos h0]
      simp [h0]
    · rw [generatePriceSuggestion, if_neg h0]
      by_cases h3 : 3 ≤ (comparableBikes db bike).length
      · simp [h3]
      · simp [h3]

/-- Witness for C9: `demoBike` has no sold comparable in `demoDB`, so the
suggestion is the 15% markup at low confidence. -/
theorem C9_price_suggestion_witness :
    ∃ s, priceSuggestion 2025 demoDB 0 = .ok s ∧
      (comparableBikes demoDB demoBike = [] →
        s.suggestedPrice = demoBike.buyPrice * (23/20) ∧ s.confidence = .low) ∧
      (comparableBikes demoDB demoBike ≠ [] →
        s.suggestedPrice = (jsRound
          ((((comparableBikes demoDB demoBike).map (fun b => b.sellPrice.getD 0)).sum /
              ((comparableBikes demoDB demoBike).length : ℚ)) *
            (1 - ((2025 - demoBike.year : Int) : ℚ) * (1/20) +
              (demoBike.conditionRating - 8) * (1/50))) : ℚ)) ∧
      (s.confidence = .high ↔ 3 ≤ (comparableBikes demoDB demoBike).length) :=
  @C9_price_suggestion 2025 demoDB 0 demoBike rfl (by decide)

theorem lookup_append_of_some {α : Type} {l l' : List (Nat × α)} {i : Nat} {v : α}
    (h : lookup l i = some v) : lookup (l ++ l') i = some v := by
  induction l with
  | nil => simp [lookup] at h
  | cons a t ih =>
    by_cases ha : a.1 = i
    · rw [List.cons_append, lookup_cons, if_pos ha]
      rw [lookup_cons, if_pos ha] at h
      exact h
    · rw [List.cons_append, lookup_cons, if_neg ha]
      rw [lookup_cons, if_neg ha] at h
      exact ih h

theorem applyBikesOp_sold_fixed {cy : Int} {db : DB} {bid : Nat} {b : Bike}
    (hlook : lookup db.bikes bid = some b) (hsold : b.status = .sold) :
    ∀ op, lookup (applyBikesOp cy db op).bikes bid = some b := by
  intro op
  cases op with
  | create req =>
    show lookup (createBike cy db req).1.bikes bid = some b
    rw [createBike]
    split
    · exact hlook
    split
    · exact hlook
    · exact lookup_append_of_some hlook
  | update bid' req =>
    show lookup (updateBike cy db bid' req).1.bikes bid = some b
    rw [updateBike]
    split
    · exact hlook
    split
    · exact hlook
    next bike' heq =>
      split
      · exact hlook
      next hst' =>
        split
        · exact hlook
        · by_cases hbb : bid = bid'
          · subst hbb
            cases Option.some.inj (heq.symm.trans hlook)
            exact absurd hsold hst'
          · show lookup (setEntry db.bikes bid' _) bid = some b
            rw [lookup_setEntry_ne hbb]
            exact hlook
  | delete bid' =>
    show lookup (deleteBike db bid').1.bikes bid = some b
    rw [deleteBike]
    split
    · exact hlook
    next bike' heq =>
      split
      · exact hlook
      next hst' =>
        by_cases hbb : bid = bid'
        · subst hbb
          cases Option.some.inj (heq.symm.trans hlook)
          exact absurd hsold hst'
        · show lookup (db.bikes.filter (fun p => p.1 ≠ bid')) bid = some b
          rw [lookup_filter_ne hbb]
          exact hlook

theorem applyBikesOps_sold_fixed {cy : Int} {bid : Nat} {b : Bike} :
    ∀ (ops : List BikesOp) (db : DB),
      lookup db.bikes bid = some b → b.status = .sold →
      lookup (applyBikesOps cy db ops).bikes bid = some b := by
  intro ops
  induction ops with
  | nil => exact fun db h _ => h
  | cons op rest ih =>
    intro db h hs
    exact ih _ (applyBikesOp_sold_fixed h hs op) hs

/-- C10: a bike whose status is `'sold'` can neither be updated nor
deleted through the bikes API — both endpoints reject without touching the
store — and consequently its record survives any sequence of bikes-API
requests (create, update, delete) unchanged: once sold, it never leaves
that status and is never deleted. -/
theorem C10_sold_bike_immutable {cy : Int} {db : DB} {bid : Nat} {b : Bike}
    (hlook : lookup db.bikes bid = some b) (hsold : b.status = .sold) :
    (∀ req, (updateBike cy db bid req).1 = db ∧
      ∃ msg, (updateBike cy db bid req).2 = .error msg) ∧
    ((deleteBike db bid).1 = db ∧ ∃ msg, (deleteBike db bid).2 = .error msg) ∧
    (∀ ops : List BikesOp, lookup (applyBikesOps cy db ops).bikes bid = some b) := by
  refine ⟨?_, ?_, fun ops => applyBikesOps_sold_fixed ops db hlook hsold⟩
  · intro req
    rw [updateBike]
    by_cases hv : validBikeRequest cy req = true
    · rw [if_neg (not_not_intro hv), hlook]
      refine ⟨?_, "Cannot update sold bike", ?_⟩ <;> simp [hsold]
    · rw [if_pos (by simpa using hv)]
      exact ⟨rfl, "Invalid input", rfl⟩
  · rw [deleteBike, hlook]
    refine ⟨?_, "Cannot delete sold bike", ?_⟩ <;> simp [hsold]

/-- Witness for C10 on the already-sold `demoSoldBike`. -/
theorem C10_sold_bike_immutable_witness :
    (∀ req, (updateBike 2025 demoSoldDB 0 req).1 = demoSoldDB ∧
      ∃ msg, (updateBike 2025 demoSoldDB 0 req).2 = .error msg) ∧
    ((deleteBike demoSoldDB 0).1 = demoSoldDB ∧
      ∃ msg, (deleteBike demoSoldDB 0).2 = .error msg) ∧
    (∀ ops : List BikesOp,
      lookup (applyBikesOps 2025 demoSoldDB ops).bikes 0 = some demoSoldBike) :=
  @C10_sold_bike_immutable 2025 demoSoldDB 0 demoSoldBike rfl (by decide)

end SaiMotors
